import Mathlib

/-!
Verification of the email-validator batch orchestrator (`app.py`,
`email_validator.py`) against its natural-language specification.

The Python code is shallowly embedded: each Python function becomes an
executable Lean definition over explicit data.  Effects are made explicit:

* the outcome of one HTTP interaction with the provider (`requests.get`
  + `raise_for_status` + `.json()`) is a value of `HttpAttempt`, and the
  successive attempts a call could make are an oracle `Nat → HttpAttempt`;
* the value returned by `validate_email` at loop iteration `i` is given by
  an oracle `Nat → ValidationResult` (iteration indices are 1-based, as in
  Python's `enumerate(emails, 1)`);
* file writes are a function `SessionData → Except String Unit` (`.error`
  models a raised exception);
* the SSE generator is a pure function returning the finite trace of
  items it produces (yielded events and snapshot-store writes).

`time.sleep` has no effect on any returned data and is not modelled.
-/

/-- Entry of the undeliverable bucket: the Python dict
`{'email': ..., 'reason': ...}`. -/
structure UndelivEntry where
  email : String
  reason : String
deriving DecidableEq, Repr

/-- Value returned by `EmailValidator.validate_email`: either the dict
`{'error': str(e), 'email': email}` built in the `except` branch, or the
parsed provider JSON, of which downstream code reads `result.get('result','')`
and `result.get('reason','')` (both default to the empty string). -/
inductive ValidationResult where
  | apiError (msg : String) (email : String)
  | verdict (result : String) (reason : String)
deriving DecidableEq, Repr

/-- Outcome of the single HTTP interaction inside `validate_email`
(`requests.get(..., timeout=30)`, `raise_for_status()`, `response.json()`).
The four failure constructors are the transport failures; each raises a
`requests.exceptions.RequestException` subclass (`Timeout`,
`ConnectionError`, `HTTPError`, `JSONDecodeError`) carrying message `msg`. -/
inductive HttpAttempt where
  | timeout (msg : String)
  | connectionFailed (msg : String)
  | httpStatusError (msg : String)
  | malformedBody (msg : String)
  | success (result : String) (reason : String)
deriving DecidableEq, Repr

/-- The `str(e)` message of a failed attempt; `none` for a success. -/
def attempt_message : HttpAttempt → Option String
  | .timeout m => some m
  | .connectionFailed m => some m
  | .httpStatusError m => some m
  | .malformedBody m => some m
  | .success _ _ => none

/-- `EmailValidator.validate_email` (app.py lines 31-45): performs exactly one
HTTP attempt (`attempts 0`); every transport failure is caught by the
`except requests.exceptions.RequestException` clause and converted to the
error dict; a success returns the parsed body. -/
def validate_email (email : String) (attempts : Nat → HttpAttempt) : ValidationResult :=
  match attempts 0 with
  | .timeout m => .apiError m email
  | .connectionFailed m => .apiError m email
  | .httpStatusError m => .apiError m email
  | .malformedBody m => .apiError m email
  | .success r s => .verdict r s

/-- Python `str.strip()` (no arguments): removes leading and trailing
whitespace, written over the string's character list so it evaluates. -/
def pyStrip (s : String) : String :=
  ⟨((s.data.dropWhile Char.isWhitespace).reverse.dropWhile Char.isWhitespace).reverse⟩

/-- Python `s.split('\n')` over the character list: the chunks between
newline characters, keeping empty chunks (so `"a\n"` gives `["a", ""]`). -/
def splitNlChars : List Char → List (List Char)
  | [] => [[]]
  | c :: rest =>
    if c = '\n' then [] :: splitNlChars rest
    else
      match splitNlChars rest with
      | [] => [[c]]
      | h :: t => (c :: h) :: t

/-- Python `s.split('\n')` as a string operation. -/
def pySplitNl (s : String) : List String := (splitNlChars s.data).map (fun l => ⟨l⟩)

/-- The orchestrator's per-address result (spec `ClassifiedEmail`). -/
inductive ClassifiedEmail where
  | deliverable (email : String)
  | undeliverable (email : String) (reason : String)
deriving DecidableEq, Repr

/-- The classification applied to one address inside `process_emails`
(app.py lines 93-109) and inside the stream loop (app.py lines 197-206):
`'error' in result` → undeliverable with an "API Error: " reason; else
`result == 'deliverable'` → deliverable; else undeliverable with
`reason or deliverable` (Python's `or`: the reason when non-empty,
otherwise the classification string). -/
def classify_result (email : String) (r : ValidationResult) : ClassifiedEmail :=
  match r with
  | .apiError m _ => .undeliverable email ("API Error: " ++ m)
  | .verdict result reason =>
    if result = "deliverable" then .deliverable email
    else .undeliverable email (if reason = "" then result else reason)

/-- The validator instance's accumulated fields `self.deliverable_emails`
and `self.undeliverable_emails`. -/
structure ValidatorState where
  deliverable_emails : List String
  undeliverable_emails : List UndelivEntry
deriving DecidableEq, Repr

/-- The `results` dict built by the web-app `process_emails`. -/
structure ProcessResults where
  deliverable : List String
  undeliverable : List UndelivEntry
  total_processed : Nat
  errors : List String
deriving DecidableEq, Repr

/-- The `for i, email in enumerate(emails, 1)` loop of the web-app
`process_emails` (app.py lines 85-113): strip the line, skip blanks, then
count it and append the classified entry to both the instance lists and the
`results` dict.  `api i` is the value `validate_email` returns at iteration
`i`; the `time.sleep(delay)` pacing changes no data and is omitted. -/
def process_loop (api : Nat → ValidationResult) :
    Nat → List String → ValidatorState → ProcessResults → ValidatorState × ProcessResults
  | _, [], st, res => (st, res)
  | i, e :: rest, st, res =>
    let email := pyStrip e
    if email = "" then
      process_loop api (i+1) rest st res
    else
      match api i with
      | .apiError m _ =>
        let info : UndelivEntry := ⟨email, "API Error: " ++ m⟩
        process_loop api (i+1) rest
          ⟨st.deliverable_emails, st.undeliverable_emails ++ [info]⟩
          ⟨res.deliverable, res.undeliverable ++ [info], res.total_processed + 1,
           res.errors ++ ["Error validating " ++ email ++ ": " ++ m]⟩
      | .verdict r reason =>
        if r = "deliverable" then
          process_loop api (i+1) rest
            ⟨st.deliverable_emails ++ [email], st.undeliverable_emails⟩
            ⟨res.deliverable ++ [email], res.undeliverable, res.total_processed + 1, res.errors⟩
        else
          let info : UndelivEntry := ⟨email, if reason = "" then r else reason⟩
          process_loop api (i+1) rest
            ⟨st.deliverable_emails, st.undeliverable_emails ++ [info]⟩
            ⟨res.deliverable, res.undeliverable ++ [info], res.total_processed + 1, res.errors⟩

/-- `EmailValidator.process_emails` of app.py (lines 70-115): clears
`self.deliverable_emails` and `self.undeliverable_emails` (so the prior
instance state `prior` is irrelevant), initialises the `results` dict and
runs the loop.  Returns the final instance state and the `results` dict. -/
def process_emails (api : Nat → ValidationResult) (prior : ValidatorState)
    (emails : List String) : ValidatorState × ProcessResults :=
  process_loop api 1 emails ⟨[], []⟩ ⟨[], [], 0, []⟩

/-- Deliverable bucket selected, in order, from a classification list. -/
def delivOf : List ClassifiedEmail → List String
  | [] => []
  | .deliverable e :: rest => e :: delivOf rest
  | .undeliverable _ _ :: rest => delivOf rest

/-- Undeliverable bucket selected, in order, from a classification list. -/
def undelivOf : List ClassifiedEmail → List UndelivEntry
  | [] => []
  | .deliverable _ :: rest => undelivOf rest
  | .undeliverable e r :: rest => ⟨e, r⟩ :: undelivOf rest

/-- Specification-level view of the `process_emails` loop: the classification
of each non-blank trimmed line, in input order (1-based iteration index). -/
def classifiedOf (api : Nat → ValidationResult) : Nat → List String → List ClassifiedEmail
  | _, [] => []
  | i, e :: rest =>
    if pyStrip e = "" then classifiedOf api (i+1) rest
    else classify_result (pyStrip e) (api i) :: classifiedOf api (i+1) rest

/-- Specification-level view of the `results['errors']` list built by
`process_emails`. -/
def errorsOf (api : Nat → ValidationResult) : Nat → List String → List String
  | _, [] => []
  | i, e :: rest =>
    if pyStrip e = "" then errorsOf api (i+1) rest
    else
      match api i with
      | .apiError m _ =>
        ("Error validating " ++ pyStrip e ++ ": " ++ m) :: errorsOf api (i+1) rest
      | .verdict _ _ => errorsOf api (i+1) rest

/-- Floor of the base-2 logarithm of a positive natural, written with an
explicit fuel argument (the number itself) so the kernel can evaluate it. -/
def log2fuel : Nat → Nat → Nat
  | 0, _ => 0
  | fuel+1, n => if n ≤ 1 then 0 else log2fuel fuel (n / 2) + 1

/-- Floor of the base-2 logarithm of a positive natural. -/
def natLog2 (n : Nat) : Nat := log2fuel n n

/-- The fraction `a / b` (`b > 0`) rounded to the nearest integer, ties to
even — the rounding step of IEEE-754 round-to-nearest-even. -/
def rnEvenDiv (a b : Nat) : Nat :=
  let q := a / b
  let r := a % b
  if 2 * r < b then q
  else if b < 2 * r then q + 1
  else if q % 2 = 0 then q else q + 1

/-- Whether `2 ^ e ≤ a / b` for naturals `a`, `b > 0`. -/
def twoPowLeDiv (e : ℤ) (a b : Nat) : Bool :=
  if 0 ≤ e then decide (2 ^ e.toNat * b ≤ a) else decide (b ≤ a * 2 ^ (-e).toNat)

/-- Floor of the base-2 logarithm of the positive fraction `a / b`. -/
def ratLog2Div (a b : Nat) : ℤ :=
  let c : ℤ := (natLog2 a : ℤ) - (natLog2 b : ℤ)
  if twoPowLeDiv (c + 1) a b then c + 1
  else if twoPowLeDiv c a b then c
  else c - 1

/-- The IEEE-754 binary64 value nearest to `a / b` (`b > 0`), as a dyadic
`(mantissa, exponent)` pair meaning `mantissa * 2 ^ exponent`: the unit in
the last place is `2 ^ (⌊log2 (a/b)⌋ - 52)`, clamped at `2 ^ (-1074)` for
subnormals, and the scaled value is rounded to nearest, ties to even.  This
is CPython's correctly-rounded `int / int` true division.  (Exponent
overflow — Python's `OverflowError` at quotients ≥ 2^1024, which no
reachable email count produces — is not modelled: the exponent is
unbounded above.) -/
def roundDivDouble (a b : Nat) : Nat × ℤ :=
  if a = 0 then (0, 0)
  else
    let u : ℤ := max (ratLog2Div a b - 52) (-1074)
    let n := if 0 ≤ u then rnEvenDiv a (b * 2 ^ u.toNat)
             else rnEvenDiv (a * 2 ^ (-u).toNat) b
    (n, u)

/-- The binary64 value nearest to the dyadic `m * 2 ^ u` — the rounding a
float multiplication by an exactly representable factor performs. -/
def roundDyadicDouble (m : Nat) (u : ℤ) : Nat × ℤ :=
  if m = 0 then (0, 0)
  else
    let u2 : ℤ := max ((natLog2 m : ℤ) + u - 52) (-1074)
    let n := if u2 ≤ u then m * 2 ^ (u - u2).toNat
             else rnEvenDiv m (2 ^ (u2 - u).toNat)
    (n, u2)

/-- Floor of the nonnegative dyadic `m * 2 ^ u`. -/
def dyadicFloor (m : Nat) (u : ℤ) : Nat :=
  if 0 ≤ u then m * 2 ^ u.toNat else m / 2 ^ (-u).toNat

/-- Python's `int(tp / te * 100)` exactly as the program computes it:
binary64 true division `tp / te`, binary64 multiplication of the result by
the exactly representable `100`, then `int()` truncation (floor, since the
value is nonnegative).  Because of the two roundings this is not always
the exact floor of `tp / te * 100`: e.g. `tp = 29, te = 100` gives
`28.999999999999996` and hence `28`, where the exact floor is `29`. -/
def float_percentage (tp te : Nat) : Nat :=
  let d := roundDivDouble tp te
  let p := roundDyadicDouble (d.1 * 100) d.2
  dyadicFloor p.1 p.2

/-- The `session_data` dict built by `EmailValidator.save_session_results`
(app.py lines 54-62).  `ts` is `datetime.now().isoformat()`;
`progress_percentage` is `int(total_processed / total_emails * 100)` when
`total_emails > 0`, else `0`, with the float evaluation modelled by
`float_percentage`. -/
structure SessionData where
  session_id : String
  timestamp : String
  deliverable : List String
  undeliverable : List UndelivEntry
  total_processed : Nat
  total_emails : Nat
  progress_percentage : Nat
deriving DecidableEq, Repr

/-- Builds the `session_data` dict of `save_session_results`. -/
def mkSessionData (sid ts : String) (d : List String) (u : List UndelivEntry)
    (tp te : Nat) : SessionData :=
  ⟨sid, ts, d, u, tp, te, if 0 < te then float_percentage tp te else 0⟩

/-- Result of one `save_session_results` call: the data it built, whether the
write succeeded, and the warning it printed when the write failed. -/
structure SaveOutcome where
  data : SessionData
  saved : Bool
  warning : Option String
deriving DecidableEq, Repr

/-- `EmailValidator.save_session_results` (app.py lines 47-68).  `write`
models `open(session_file, 'w')` plus `json.dump` — both sit inside the
`try`, so a `.error e` models any exception raised while serializing or
writing; the `except Exception` clause turns it into a printed warning and
the function returns normally in both cases. -/
def save_session_results (sid ts : String) (d : List String) (u : List UndelivEntry)
    (tp te : Nat) (write : SessionData → Except String Unit) : SaveOutcome :=
  let data := mkSessionData sid ts d u tp te
  match write data with
  | .ok _ => ⟨data, true, none⟩
  | .error e => ⟨data, false, some ("Warning: Could not save session data: " ++ e)⟩

/-- The check `filename.endswith('.json')` of `list_sessions`, written over
the string's character list. -/
def endsWithJson (s : String) : Bool := s.data.reverse.take 5 == ".json".data.reverse

/-- The fields of a stored session record that `list_sessions` reads, each
optional because `dict.get` with no default returns `None` for a missing
key (`progress_percentage`, `deliverable` and `undeliverable` are read with
explicit defaults `0`, `[]`, `[]`). -/
structure StoredSession where
  timestamp : Option String
  total_processed : Option Nat
  total_emails : Option Nat
  progress_percentage : Option Nat
  deliverable : Option (List String)
  undeliverable : Option (List UndelivEntry)
deriving DecidableEq, Repr

/-- The summary dict appended by `list_sessions` for one readable record
(app.py lines 376-384).  `timestamp` keeps the `Option`: the Python dict
holds `session_data.get('timestamp')`, which is `None` when the record has
no timestamp field. -/
structure SessionSummary where
  session_id : String
  timestamp : Option String
  total_processed : Option Nat
  total_emails : Option Nat
  progress_percentage : Nat
  deliverable_count : Nat
  undeliverable_count : Nat
deriving DecidableEq, Repr

/-- Builds the summary dict of `list_sessions` from one parsed record. -/
def mkSummary (sid : String) (s : StoredSession) : SessionSummary :=
  ⟨sid, s.timestamp, s.total_processed, s.total_emails,
   s.progress_percentage.getD 0, (s.deliverable.getD []).length,
   (s.undeliverable.getD []).length⟩

/-- Lexicographic `≤` on character lists, comparing code points — the order
Python uses on strings. -/
def charListLe : List Char → List Char → Bool
  | [], _ => true
  | _ :: _, [] => false
  | a :: as, b :: bs => if a = b then charListLe as bs else decide (a < b)

/-- Stable descending insertion by timestamp, `None` read as `""`: the
insertion point of `a` is after every already-placed summary whose key is
`≥` its own, which is exactly Python's stable `sort(key=..., reverse=True)`
order on string keys. -/
def insertTimestampDesc (a : SessionSummary) : List SessionSummary → List SessionSummary
  | [] => [a]
  | b :: rest =>
    if charListLe (a.timestamp.getD "").data (b.timestamp.getD "").data then
      b :: insertTimestampDesc a rest
    else a :: b :: rest

/-- Stable sort of the summaries, newest timestamp first. -/
def sortSessionsDesc (l : List SessionSummary) : List SessionSummary :=
  l.foldl (fun acc x => insertTimestampDesc x acc) []

/-- The `/sessions` route body `list_sessions` (app.py lines 362-396).
`files` is the directory listing: each entry is a filename and either the
parsed record or `none` when `open`/`json.load` raised (the inner
`except ... continue` skips it).  Only `.json` files are considered and the
session id is the filename without its last five characters.  The sort key
is `x.get('timestamp', '')`; since every summary dict contains the key
`'timestamp'` (possibly with value `None`), the `''` default is dead code
and the key of a record with no timestamp field is `None`.  CPython's sort
compares every element of a list of length ≥ 2 at least once with `<`, and
comparing `None` with a string (or with `None`) raises `TypeError`, which
the route's outer `except Exception` turns into an error response — modelled
by the `.error` branch. -/
def list_sessions (files : List (String × Option StoredSession)) :
    Except String (List SessionSummary) :=
  let summaries := files.filterMap (fun fc =>
    if endsWithJson fc.1 then
      match fc.2 with
      | some s => some (mkSummary (fc.1.dropRight 5) s)
      | none => none
    else none)
  if 2 ≤ summaries.length ∧ summaries.any (fun s => s.timestamp.isNone) then
    Except.error "TypeError: '<' not supported between instances of 'str' and 'NoneType'"
  else
    Except.ok (sortSessionsDesc summaries)

/-- One server-sent event yielded by the stream generator (the payload of a
`data: {...}` line). -/
inductive StreamEvent where
  | configError (typed : Bool) (message : String)
  | progress (current : Nat) (total : Nat) (percentage : Nat)
      (currentEmail : Option String) (sessionId : String) (warning : Option String)
  | complete (deliverable : List String) (undeliverable : List UndelivEntry)
      (totalProcessed : Nat) (sessionId : String)
  | partialComplete (error : String) (deliverable : List String)
      (undeliverable : List UndelivEntry) (totalProcessed : Nat)
      (sessionId : String) (message : String)
deriving DecidableEq, Repr

/-- One observable step of the generator: a yielded event, or a
`save_session_results` call (a snapshot-store write) with its arguments. -/
inductive StreamItem where
  | event (e : StreamEvent)
  | save (sessionId : String) (deliverable : List String)
      (undeliverable : List UndelivEntry) (total_processed : Nat) (total_emails : Nat)
deriving DecidableEq, Repr

/-- Inputs and fault environment of one `validate_emails_stream` run.
`api i` is what `validate_email` returns at loop iteration `i`;
`addrFault i = some m` means an exception with message `m` escapes the
per-address processing at iteration `i` and is caught by the inner
`except Exception as email_error` clause; `runFaultAt i = some m` means an
exception with message `m` escapes the per-address recovery at the start of
iteration `i` and reaches the generator's outer `except Exception` clause. -/
structure StreamConfig where
  apiKey : String
  emailsText : String
  sessionId : String
  api : Nat → ValidationResult
  addrFault : Nat → Option String
  runFaultAt : Nat → Option String

/-- The list comprehension
`[email.strip() for email in emails_text.split('\n') if email.strip()]`. -/
def parse_emails (text : String) : List String :=
  (pySplitNl text).filterMap (fun l => if pyStrip l = "" then none else some (pyStrip l))

/-- The `'message'` field of the partial-complete event (app.py line 270). -/
def partial_message (n : Nat) : String :=
  "Error occurred but " ++ toString n ++
    " emails were successfully validated. Results saved to session."

/-- The outer `except Exception` handler of the generator (app.py lines
254-283): a best-effort snapshot write when `total_emails > 0`, then the
partial-complete event carrying the accumulated buckets, with
`total_processed` recomputed as the sum of the bucket lengths. -/
def partial_items (sid : String) (total : Nat) (d : List String)
    (u : List UndelivEntry) (errMsg : String) : List StreamItem :=
  let n := d.length + u.length
  (if 0 < total then [StreamItem.save sid d u n total] else [])
    ++ [StreamItem.event (.partialComplete errMsg d u n sid (partial_message n))]

/-- The `for i, email in enumerate(emails, 1)` loop of the stream generator
(app.py lines 193-252), including the final complete event.  The addresses
were already trimmed and blank-filtered by `parse_emails`, so no per-line
skipping happens here.  Each normal iteration appends the classified entry,
writes a snapshot, and yields a progress event with
`percentage = int(i / total * 100)`; a per-address fault appends a
"Processing Error" entry, writes a snapshot, and yields the progress event
with a warning; a run-level fault aborts into `partial_items`. -/
def stream_loop (cfg : StreamConfig) (total : Nat) :
    Nat → List String → List String → List UndelivEntry → List StreamItem
  | _, [], d, u => [StreamItem.event (.complete d u total cfg.sessionId)]
  | i, e :: rest, d, u =>
    match cfg.runFaultAt i with
    | some m => partial_items cfg.sessionId total d u m
    | none =>
      match cfg.addrFault i with
      | some m =>
        let u' := u ++ [⟨e, "Processing Error: " ++ m⟩]
        StreamItem.save cfg.sessionId d u' i total ::
        StreamItem.event (.progress i total (float_percentage i total) (some e) cfg.sessionId
          (some ("Error processing " ++ e ++ ": " ++ m))) ::
        stream_loop cfg total (i+1) rest d u'
      | none =>
        match classify_result e (cfg.api i) with
        | .deliverable em =>
          let d' := d ++ [em]
          StreamItem.save cfg.sessionId d' u i total ::
          StreamItem.event (.progress i total (float_percentage i total) (some e) cfg.sessionId none) ::
          stream_loop cfg total (i+1) rest d' u
        | .undeliverable em reason =>
          let u' := u ++ [⟨em, reason⟩]
          StreamItem.save cfg.sessionId d u' i total ::
          StreamItem.event (.progress i total (float_percentage i total) (some e) cfg.sessionId none) ::
          stream_loop cfg total (i+1) rest d u'

/-- The generator body of `validate_emails_stream` (app.py lines 164-283):
credential check, blank-input check, parse, empty-list check, initial
progress event with `current=0`, then the loop. -/
def generate (cfg : StreamConfig) : List StreamItem :=
  if cfg.apiKey = "" then
    [StreamItem.event (.configError true "KICKBOX_API_KEY not configured on server")]
  else if pyStrip cfg.emailsText = "" then
    [StreamItem.event (.configError false "No emails provided")]
  else
    let emails := parse_emails cfg.emailsText
    if emails.isEmpty then
      [StreamItem.event (.configError false "No valid emails found")]
    else
      StreamItem.event (.progress 0 emails.length 0 none cfg.sessionId none) ::
        stream_loop cfg emails.length 1 emails [] []

/-- The events of a trace, in order. -/
def eventsOf (items : List StreamItem) : List StreamEvent :=
  items.filterMap (fun it => match it with
    | .event e => some e
    | .save _ _ _ _ _ => none)

/-- The snapshot-store writes of a trace, in order. -/
def savesOf (items : List StreamItem) : List StreamItem :=
  items.filter (fun it => match it with
    | .event _ => false
    | .save _ _ _ _ _ => true)

/-- Whether an event is a progress event. -/
def isProgressEvent : StreamEvent → Bool
  | .progress _ _ _ _ _ _ => true
  | _ => false

/-- Whether an event terminates the stream: a config error, a complete, or
a partial-complete. -/
def isTerminalEvent : StreamEvent → Bool
  | .configError _ _ => true
  | .complete _ _ _ _ => true
  | .partialComplete _ _ _ _ _ _ => true
  | .progress _ _ _ _ _ _ => false

/-- The progress events of a trace, in order. -/
def progressEvents (items : List StreamItem) : List StreamEvent :=
  (eventsOf items).filter isProgressEvent

/-- The per-address entry the stream loop appends at iteration `i` for
address `e`: a "Processing Error" entry when the per-address fault fires,
otherwise the classification of what `validate_email` returned. -/
def stream_step_entry (cfg : StreamConfig) (i : Nat) (e : String) : ClassifiedEmail :=
  match cfg.addrFault i with
  | some m => .undeliverable e ("Processing Error: " ++ m)
  | none => classify_result e (cfg.api i)

/-- Specification-level view of the stream loop's classifications from
iteration `i` on. -/
def stream_classified (cfg : StreamConfig) : Nat → List String → List ClassifiedEmail
  | _, [] => []
  | i, e :: rest => stream_step_entry cfg i e :: stream_classified cfg (i+1) rest

/-- True exactly when the `/sessions` route returns a listing (rather than
the 500 error response produced by its outer exception handler). -/
def listingSucceeds (r : Except String (List SessionSummary)) : Bool :=
  match r with
  | .ok _ => true
  | .error _ => false

lemma length_deliv_undeliv (cls : List ClassifiedEmail) :
    (delivOf cls).length + (undelivOf cls).length = cls.length := by
  induction cls with
  | nil => simp [delivOf, undelivOf]
  | cons c rest ih => cases c <;> simp [delivOf, undelivOf] <;> omega

lemma classifiedOf_length (api : Nat → ValidationResult) :
    ∀ (emails : List String) (i : Nat),
      (classifiedOf api i emails).length = (emails.filter (fun e => pyStrip e != "")).length := by
  intro emails
  induction emails with
  | nil => intro i; simp [classifiedOf]
  | cons e rest ih =>
    intro i
    by_cases h : pyStrip e = "" <;> simp [classifiedOf, h, ih]

lemma process_loop_spec (api : Nat → ValidationResult) :
    ∀ (emails : List String) (i : Nat) (st : ValidatorState) (res : ProcessResults),
      process_loop api i emails st res =
        (⟨st.deliverable_emails ++ delivOf (classifiedOf api i emails),
          st.undeliverable_emails ++ undelivOf (classifiedOf api i emails)⟩,
         ⟨res.deliverable ++ delivOf (classifiedOf api i emails),
          res.undeliverable ++ undelivOf (classifiedOf api i emails),
          res.total_processed + (classifiedOf api i emails).length,
          res.errors ++ errorsOf api i emails⟩) := by
  intro emails
  induction emails with
  | nil => intro i st res; simp [process_loop, classifiedOf, errorsOf, delivOf, undelivOf]
  | cons e rest ih =>
    intro i st res
    by_cases he : pyStrip e = ""
    · simp [process_loop, classifiedOf, errorsOf, he, ih]
    · cases hr : api i with
      | apiError m em =>
        simp [process_loop, classifiedOf, errorsOf, he, hr, classify_result, delivOf,
          undelivOf, ih, List.append_assoc] <;> omega
      | verdict r reason =>
        by_cases hd : r = "deliverable"
        · simp [process_loop, classifiedOf, errorsOf, he, hr, hd, classify_result, delivOf,
            undelivOf, ih, List.append_assoc] <;> omega
        · simp [process_loop, classifiedOf, errorsOf, he, hr, hd, classify_result, delivOf,
            undelivOf, ih, List.append_assoc] <;> omega

/-- C2: classification follows the three rules in order — a transport error
yields Undeliverable with "API Error: " prefixed to the error message;
otherwise classification "deliverable" yields Deliverable; otherwise the
address is Undeliverable with reason equal to the outcome's reason if that
reason is non-empty, else the outcome's classification value. -/
theorem classify_result_rules (email : String) :
    (∀ m em, classify_result email (.apiError m em) =
        .undeliverable email ("API Error: " ++ m))
    ∧ (∀ reason, classify_result email (.verdict "deliverable" reason) =
        .deliverable email)
    ∧ (∀ r reason, r ≠ "deliverable" →
        classify_result email (.verdict r reason) =
          .undeliverable email (if reason = "" then r else reason)) := by
  refine ⟨fun m em => rfl, fun reason => by simp [classify_result],
    fun r reason hr => by simp [classify_result, hr]⟩

/-- Witness for `classify_result_rules` at the spec's three examples. -/
theorem classify_result_rules_witness :
    classify_result "a@x.com" (.apiError "timeout" "a@x.com") =
      .undeliverable "a@x.com" "API Error: timeout"
    ∧ classify_result "a@x.com" (.verdict "deliverable" "") = .deliverable "a@x.com"
    ∧ classify_result "a@x.com" (.verdict "risky" "low_quality") =
      .undeliverable "a@x.com" "low_quality" := by
  refine ⟨?_, (classify_result_rules "a@x.com").2.1 "", ?_⟩
  · have h := (classify_result_rules "a@x.com").1 "timeout" "a@x.com"
    exact h.trans (by decide)
  · have h := (classify_result_rules "a@x.com").2.2 "risky" "low_quality" (by decide)
    exact h.trans (by decide)

/-- C1: for every non-empty list of input lines, the web-app
`process_emails` produces exactly one classified result per non-blank
trimmed line (the classification list `classifiedOf`, one entry per
non-blank line, in input order), each line lands in exactly one bucket, the
buckets preserve input order (they are the in-order selections `delivOf` /
`undelivOf`), and `total_processed` is the sum of the two bucket sizes. -/
theorem process_emails_one_result_per_line (api : Nat → ValidationResult)
    (prior : ValidatorState) (emails : List String) (hne : emails ≠ []) :
    (process_emails api prior emails).2.deliverable = delivOf (classifiedOf api 1 emails)
    ∧ (process_emails api prior emails).2.undeliverable = undelivOf (classifiedOf api 1 emails)
    ∧ (process_emails api prior emails).2.total_processed = (classifiedOf api 1 emails).length
    ∧ (classifiedOf api 1 emails).length = (emails.filter (fun e => pyStrip e != "")).length
    ∧ (process_emails api prior emails).2.total_processed =
        (process_emails api prior emails).2.deliverable.length +
        (process_emails api prior emails).2.undeliverable.length := by
  refine ⟨?_, ?_, ?_, ?_, ?_⟩ <;>
    simp [process_emails, process_loop_spec, classifiedOf_length, length_deliv_undeliv]

/-- Concrete API oracle for the C1 witness: iteration 1 deliverable,
iteration 3 a transport error, anything else a risky verdict. -/
def apiW : Nat → ValidationResult := fun i =>
  if i = 1 then .verdict "deliverable" ""
  else if i = 3 then .apiError "timeout" "b@x.com"
  else .verdict "risky" "low_quality"

/-- Concrete input lines for the C1 witness (one blank line). -/
def emailsW : List String := ["a@x.com", "  ", "b@x.com", "c@x.com"]

/-- Witness for `process_emails_one_result_per_line` at a concrete batch. -/
theorem process_emails_one_result_per_line_witness :
    emailsW ≠ [] ∧
    ((process_emails apiW ⟨[], []⟩ emailsW).2.deliverable = delivOf (classifiedOf apiW 1 emailsW)
     ∧ (process_emails apiW ⟨[], []⟩ emailsW).2.undeliverable = undelivOf (classifiedOf apiW 1 emailsW)
     ∧ (process_emails apiW ⟨[], []⟩ emailsW).2.total_processed = (classifiedOf apiW 1 emailsW).length
     ∧ (classifiedOf apiW 1 emailsW).length = (emailsW.filter (fun e => pyStrip e != "")).length
     ∧ (process_emails apiW ⟨[], []⟩ emailsW).2.total_processed =
         (process_emails apiW ⟨[], []⟩ emailsW).2.deliverable.length +
         (process_emails apiW ⟨[], []⟩ emailsW).2.undeliverable.length) :=
  ⟨by decide, process_emails_one_result_per_line apiW ⟨[], []⟩ emailsW (by decide)⟩

/-- C10: the web-app `process_emails` clears the instance's accumulated
lists at the start of every call, so its outcome is independent of the
prior instance state, and after the call the instance lists equal exactly
the returned deliverable and undeliverable results. -/
theorem process_emails_state_reset (api : Nat → ValidationResult)
    (p q : ValidatorState) (emails : List String) :
    process_emails api p emails = process_emails api q emails
    ∧ (process_emails api p emails).1.deliverable_emails =
        (process_emails api p emails).2.deliverable
    ∧ (process_emails api p emails).1.undeliverable_emails =
        (process_emails api p emails).2.undeliverable := by
  refine ⟨rfl, ?_, ?_⟩ <;> simp [process_emails, process_loop_spec]

/-- C9: `validate_email` consults exactly one HTTP attempt (no retry: its
result depends only on attempt 0), and every transport failure — timeout,
connection error, non-2xx status, malformed response body — is caught and
returned as the error dict carrying the failure message, never raised. -/
theorem validate_email_no_raise_no_retry (email : String) (a b : Nat → HttpAttempt)
    (hab : a 0 = b 0) :
    validate_email email a = validate_email email b
    ∧ (∀ m, attempt_message (a 0) = some m →
        validate_email email a = .apiError m email)
    ∧ (∀ r s, a 0 = .success r s → validate_email email a = .verdict r s) := by
  refine ⟨?_, ?_, ?_⟩
  · unfold validate_email; rw [hab]
  · intro m hm
    cases h : a 0 <;> rw [h] at hm <;> simp [attempt_message] at hm <;>
      simp [validate_email, h, hm]
  · intro r s h; simp [validate_email, h]

/-- Failing first attempt for the C9 witness. -/
def attemptsW : Nat → HttpAttempt := fun n =>
  if n = 0 then .timeout "t" else .success "deliverable" ""

/-- Oracle agreeing with `attemptsW` on attempt 0 only. -/
def attemptsW2 : Nat → HttpAttempt := fun _ => .timeout "t"

/-- Witness for `validate_email_no_raise_no_retry` at a concrete timeout. -/
theorem validate_email_no_raise_no_retry_witness :
    validate_email "e@x.com" attemptsW = validate_email "e@x.com" attemptsW2
    ∧ validate_email "e@x.com" attemptsW = .apiError "t" "e@x.com" := by
  have h := validate_email_no_raise_no_retry "e@x.com" attemptsW attemptsW2 rfl
  exact ⟨h.1, h.2.1 "t" rfl⟩

/-- C7: `save_session_results` never propagates a persistence failure: it
always returns normally with the session data it built, and any error
raised while serializing or writing the snapshot file is caught and logged
as a printed warning. -/
theorem save_session_results_swallows (sid ts : String) (d : List String)
    (u : List UndelivEntry) (tp te : Nat) (write : SessionData → Except String Unit) :
    (save_session_results sid ts d u tp te write).data = mkSessionData sid ts d u tp te
    ∧ ∀ e, write (mkSessionData sid ts d u tp te) = .error e →
        save_session_results sid ts d u tp te write =
          ⟨mkSessionData sid ts d u tp te, false,
           some ("Warning: Could not save session data: " ++ e)⟩ := by
  constructor
  · cases h : write (mkSessionData sid ts d u tp te) <;>
      simp [save_session_results, h]
  · intro e he; simp [save_session_results, he]

/-- Writer that always fails, for the C7 witness. -/
def writeFailW : SessionData → Except String Unit := fun _ => .error "disk full"

/-- Witness for `save_session_results_swallows` at a concrete failing write. -/
theorem save_session_results_swallows_witness :
    save_session_results "sess" "2024-01-01T00:00:00" ["a@x.com"] [] 1 3 writeFailW =
      ⟨mkSessionData "sess" "2024-01-01T00:00:00" ["a@x.com"] [] 1 3, false,
       some "Warning: Could not save session data: disk full"⟩ := by
  have h := (save_session_results_swallows "sess" "2024-01-01T00:00:00" ["a@x.com"] []
    1 3 writeFailW).2 "disk full" rfl
  exact h.trans (by decide)

/-- C8 counterexample: at processed 29 of 100 the snapshot stores 28 —
`29/100` rounds to the double `0.28999999999999998...`, the multiplication
by 100 gives `28.999999999999996`, and `int()` truncates to 28 — while the
exact floor of `29 / 100 * 100` is 29, so the stored percentage is not the
exact floor. -/
theorem progress_percentage_not_exact_floor :
    ¬ ((mkSessionData "s" "t" [] [] 29 100).progress_percentage =
        Nat.floor ((29 : ℚ) / 100 * 100)) := by
  have h1 : (mkSessionData "s" "t" [] [] 29 100).progress_percentage = 28 := by decide
  have h2 : Nat.floor ((29 : ℚ) / 100 * 100) = 29 := by
    rw [show ((29 : ℚ) / 100 * 100) = ((29 : ℕ) : ℚ) from by norm_num, Nat.floor_natCast]
  simp [h1, h2]

/-- C8 amended: the snapshot's derived `progress_percentage` is the `int()`
truncation of the double-precision evaluation of `processed / total * 100`
(the composition of binary64 division and multiplication modelled by
`float_percentage`); it is 0 when the total is 0, and processed 1 of 3
gives 33 (truncation, not rounding) — but the float roundings can land one
below the exact floor, as at processed 29 of 100, which stores 28. -/
theorem progress_percentage_float_trunc (sid ts : String) (d : List String)
    (u : List UndelivEntry) (tp te : Nat) :
    (mkSessionData sid ts d u tp 0).progress_percentage = 0
    ∧ (0 < te → (mkSessionData sid ts d u tp te).progress_percentage =
        float_percentage tp te)
    ∧ (mkSessionData sid ts d u 1 3).progress_percentage = 33
    ∧ (mkSessionData sid ts d u 29 100).progress_percentage = 28 := by
  refine ⟨rfl, fun hte => ?_, (by decide : float_percentage 1 3 = 33),
    (by decide : float_percentage 29 100 = 28)⟩
  simp [mkSessionData, hte]

/-- Witness for `progress_percentage_float_trunc` at processed 1 of 3. -/
theorem progress_percentage_float_trunc_witness :
    (0 : Nat) < 3 ∧ (mkSessionData "s" "t" [] [] 1 3).progress_percentage =
      float_percentage 1 3 := by
  have h := (progress_percentage_float_trunc "s" "t" [] [] 1 3).2.1 (by norm_num)
  exact ⟨by norm_num, h⟩

/-- C4 (code bug): with two readable records of which one has no timestamp
field, the summary's timestamp is `None`, the sort key `x.get('timestamp',
'')` returns that `None` (the key is present, so the `''` default is dead),
and the sort raises `TypeError` — the listing fails instead of sorting the
record last.  By contrast, a corrupt record is skipped and records with
timestamps are listed newest first. -/
theorem list_sessions_missing_timestamp_behavior :
    listingSucceeds (list_sessions
      [("a.json", some ⟨some "2024-01-02T00:00:00", some 1, some 2, some 50,
          some ["x@y.com"], some []⟩),
       ("b.json", some ⟨none, some 1, some 1, some 100, some [], some []⟩)]) = false
    ∧ list_sessions
        [("old.json", some ⟨some "2024-01-01T00:00:00", some 1, some 1, some 100,
            some ["x@y.com"], some []⟩),
         ("broken.json", none),
         ("notes.txt", some ⟨some "2024-01-03T00:00:00", some 1, some 1, some 100,
            some [], some []⟩),
         ("new.json", some ⟨some "2024-01-02T00:00:00", some 2, some 2, some 100,
            some [], some [⟨"y@z.com", "rejected"⟩]⟩)] =
      .ok [⟨"new", some "2024-01-02T00:00:00", some 2, some 2, 100, 0, 1⟩,
           ⟨"old", some "2024-01-01T00:00:00", some 1, some 1, 100, 1, 0⟩] :=
  ⟨by decide, rfl⟩

/-- The warning the stream loop attaches to the progress event of iteration
`i`: present exactly when the per-address fault fires there. -/
def stream_warning (cfg : StreamConfig) (i : Nat) (e : String) : Option String :=
  match cfg.addrFault i with
  | some m => some ("Error processing " ++ e ++ ": " ++ m)
  | none => none

/-- The progress events the stream loop yields from iteration `i` on, one
per address. -/
def stream_progress_events (cfg : StreamConfig) (total : Nat) :
    Nat → List String → List StreamEvent
  | _, [] => []
  | i, e :: rest =>
    .progress i total (float_percentage i total) (some e) cfg.sessionId (stream_warning cfg i e) ::
      stream_progress_events cfg total (i+1) rest

lemma eventsOf_nil : eventsOf [] = [] := rfl

lemma eventsOf_cons_event (e : StreamEvent) (l : List StreamItem) :
    eventsOf (.event e :: l) = e :: eventsOf l := rfl

lemma eventsOf_cons_save (sid : String) (d : List String) (u : List UndelivEntry)
    (tp te : Nat) (l : List StreamItem) :
    eventsOf (.save sid d u tp te :: l) = eventsOf l := rfl

lemma stream_loop_no_fault (cfg : StreamConfig) (total : Nat)
    (h : ∀ k, cfg.runFaultAt k = none) :
    ∀ (emails : List String) (i : Nat) (d : List String) (u : List UndelivEntry),
      eventsOf (stream_loop cfg total i emails d u) =
        stream_progress_events cfg total i emails ++
          [.complete (d ++ delivOf (stream_classified cfg i emails))
            (u ++ undelivOf (stream_classified cfg i emails)) total cfg.sessionId] := by
  intro emails
  induction emails with
  | nil =>
    intro i d u
    simp [stream_loop, stream_progress_events, stream_classified, eventsOf,
      delivOf, undelivOf]
  | cons e rest ih =>
    intro i d u
    cases ha : cfg.addrFault i with
    | some m =>
      simp [stream_loop, h i, ha, stream_progress_events, stream_classified,
        stream_step_entry, stream_warning, eventsOf_cons_event, eventsOf_cons_save,
        delivOf, undelivOf, ih, List.append_assoc]
    | none =>
      cases hc : classify_result e (cfg.api i) with
      | deliverable em =>
        simp [stream_loop, h i, ha, hc, stream_progress_events, stream_classified,
          stream_step_entry, stream_warning, eventsOf_cons_event, eventsOf_cons_save,
          delivOf, undelivOf, ih, List.append_assoc]
      | undeliverable em r =>
        simp [stream_loop, h i, ha, hc, stream_progress_events, stream_classified,
          stream_step_entry, stream_warning, eventsOf_cons_event, eventsOf_cons_save,
          delivOf, undelivOf, ih, List.append_assoc]

lemma stream_loop_ends_terminal (cfg : StreamConfig) (total : Nat) :
    ∀ (emails : List String) (i : Nat) (d : List String) (u : List UndelivEntry),
      ∃ pre t, eventsOf (stream_loop cfg total i emails d u) = pre ++ [t]
        ∧ isTerminalEvent t = true ∧ ∀ x ∈ pre, isTerminalEvent x = false := by
  intro emails
  induction emails with
  | nil =>
    intro i d u
    exact ⟨[], .complete d u total cfg.sessionId,
      by simp [stream_loop, eventsOf_nil, eventsOf_cons_event], rfl, by simp⟩
  | cons e rest ih =>
    intro i d u
    cases hr : cfg.runFaultAt i with
    | some m =>
      refine ⟨[], .partialComplete m d u (d.length + u.length) cfg.sessionId
        (partial_message (d.length + u.length)), ?_, rfl, by simp⟩
      by_cases ht : 0 < total <;>
        simp [stream_loop, hr, partial_items, eventsOf_nil, eventsOf_cons_event,
          eventsOf_cons_save, ht]
    | none =>
      cases ha : cfg.addrFault i with
      | some m =>
        obtain ⟨pre, t, heq, hterm, hpre⟩ := ih (i+1) d (u ++ [⟨e, "Processing Error: " ++ m⟩])
        refine ⟨.progress i total (float_percentage i total) (some e) cfg.sessionId
          (some ("Error processing " ++ e ++ ": " ++ m)) :: pre, t, ?_, hterm, ?_⟩
        · simp [stream_loop, hr, ha, eventsOf_cons_event, eventsOf_cons_save, heq]
        · intro x hx
          rcases List.mem_cons.mp hx with h1 | h2
          · subst h1; rfl
          · exact hpre x h2
      | none =>
        cases hc : classify_result e (cfg.api i) with
        | deliverable em =>
          obtain ⟨pre, t, heq, hterm, hpre⟩ := ih (i+1) (d ++ [em]) u
          refine ⟨.progress i total (float_percentage i total) (some e) cfg.sessionId none :: pre,
            t, ?_, hterm, ?_⟩
          · simp [stream_loop, hr, ha, hc, eventsOf_cons_event, eventsOf_cons_save, heq]
          · intro x hx
            rcases List.mem_cons.mp hx with h1 | h2
            · subst h1; rfl
            · exact hpre x h2
        | undeliverable em r =>
          obtain ⟨pre, t, heq, hterm, hpre⟩ := ih (i+1) d (u ++ [⟨em, r⟩])
          refine ⟨.progress i total (float_percentage i total) (some e) cfg.sessionId none :: pre,
            t, ?_, hterm, ?_⟩
          · simp [stream_loop, hr, ha, hc, eventsOf_cons_event, eventsOf_cons_save, heq]
          · intro x hx
            rcases List.mem_cons.mp hx with h1 | h2
            · subst h1; rfl
            · exact hpre x h2

lemma stream_loop_fault (cfg : StreamConfig) (total j : Nat) (m : String)
    (hj : cfg.runFaultAt j = some m) :
    ∀ (emails : List String) (i : Nat) (d : List String) (u : List UndelivEntry),
      i ≤ j → (∀ k, i ≤ k → k < j → cfg.runFaultAt k = none) →
      j < i + emails.length →
      ∃ pre D U, eventsOf (stream_loop cfg total i emails d u) =
          pre ++ [.partialComplete m D U (D.length + U.length) cfg.sessionId
            (partial_message (D.length + U.length))]
        ∧ D = d ++ delivOf (stream_classified cfg i (emails.take (j - i)))
        ∧ U = u ++ undelivOf (stream_classified cfg i (emails.take (j - i))) := by
  intro emails
  induction emails with
  | nil => intro i d u hij hpre hlt; simp at hlt; omega
  | cons e rest ih =>
    intro i d u hij hpre hlt
    by_cases hii : i = j
    · subst hii
      refine ⟨[], d, u, ?_, by simp [stream_classified, delivOf],
        by simp [stream_classified, undelivOf]⟩
      by_cases ht : 0 < total <;>
        simp [stream_loop, hj, partial_items, eventsOf_nil, eventsOf_cons_event,
          eventsOf_cons_save, ht]
    · have hilt : i < j := lt_of_le_of_ne hij hii
      have hri : cfg.runFaultAt i = none := hpre i le_rfl hilt
      have htake : (e :: rest).take (j - i) = e :: rest.take (j - (i+1)) := by
        have : j - i = (j - (i+1)) + 1 := by omega
        rw [this, List.take_succ_cons]
      have hpre' : ∀ k, i + 1 ≤ k → k < j → cfg.runFaultAt k = none :=
        fun k h1 h2 => hpre k (by omega) h2
      have hlt' : j < (i + 1) + rest.length := by
        simp at hlt; omega
      cases ha : cfg.addrFault i with
      | some w =>
        obtain ⟨pre, D, U, heq, hD, hU⟩ :=
          ih (i+1) d (u ++ [⟨e, "Processing Error: " ++ w⟩]) (by omega) hpre' hlt'
        refine ⟨.progress i total (float_percentage i total) (some e) cfg.sessionId
          (some ("Error processing " ++ e ++ ": " ++ w)) :: pre, D, U, ?_, ?_, ?_⟩
        · simp [stream_loop, hri, ha, eventsOf_cons_event, eventsOf_cons_save, heq]
        · rw [hD, htake]
          simp [stream_classified, stream_step_entry, ha, delivOf]
        · rw [hU, htake]
          simp [stream_classified, stream_step_entry, ha, undelivOf, List.append_assoc]
      | none =>
        cases hc : classify_result e (cfg.api i) with
        | deliverable em =>
          obtain ⟨pre, D, U, heq, hD, hU⟩ :=
            ih (i+1) (d ++ [em]) u (by omega) hpre' hlt'
          refine ⟨.progress i total (float_percentage i total) (some e) cfg.sessionId none :: pre,
            D, U, ?_, ?_, ?_⟩
          · simp [stream_loop, hri, ha, hc, eventsOf_cons_event, eventsOf_cons_save, heq]
          · rw [hD, htake]
            simp [stream_classified, stream_step_entry, ha, hc, delivOf, List.append_assoc]
          · rw [hU, htake]
            simp [stream_classified, stream_step_entry, ha, hc, undelivOf]
        | undeliverable em r =>
          obtain ⟨pre, D, U, heq, hD, hU⟩ :=
            ih (i+1) d (u ++ [⟨em, r⟩]) (by omega) hpre' hlt'
          refine ⟨.progress i total (float_percentage i total) (some e) cfg.sessionId none :: pre,
            D, U, ?_, ?_, ?_⟩
          · simp [stream_loop, hri, ha, hc, eventsOf_cons_event, eventsOf_cons_save, heq]
          · rw [hD, htake]
            simp [stream_classified, stream_step_entry, ha, hc, delivOf]
          · rw [hU, htake]
            simp [stream_classified, stream_step_entry, ha, hc, undelivOf, List.append_assoc]

/-- C5: if the credential is absent, or the raw input trims to empty, or no
non-blank address lines remain after normalization, the stream consists of
a single terminal config-error event: zero progress events, no complete or
partial-complete event, and no snapshot-store write. -/
theorem stream_config_error_is_terminal (cfg : StreamConfig)
    (h : cfg.apiKey = "" ∨ pyStrip cfg.emailsText = "" ∨ parse_emails cfg.emailsText = []) :
    ∃ t msg, generate cfg = [StreamItem.event (.configError t msg)]
      ∧ progressEvents (generate cfg) = []
      ∧ savesOf (generate cfg) = []
      ∧ eventsOf (generate cfg) = [.configError t msg] := by
  have single : ∀ t msg, generate cfg = [StreamItem.event (.configError t msg)] →
      ∃ t' msg', generate cfg = [StreamItem.event (.configError t' msg')]
        ∧ progressEvents (generate cfg) = []
        ∧ savesOf (generate cfg) = []
        ∧ eventsOf (generate cfg) = [.configError t' msg'] := by
    intro t msg hg
    refine ⟨t, msg, hg, ?_, ?_, ?_⟩ <;>
      rw [hg] <;> rfl
  by_cases hk : cfg.apiKey = ""
  · exact single true "KICKBOX_API_KEY not configured on server" (by simp [generate, hk])
  · by_cases htr : pyStrip cfg.emailsText = ""
    · exact single false "No emails provided" (by simp [generate, hk, htr])
    · have hp : parse_emails cfg.emailsText = [] := by
        rcases h with h1 | h2 | h3
        · exact absurd h1 hk
        · exact absurd h2 htr
        · exact h3
      exact single false "No valid emails found" (by simp [generate, hk, htr, hp])

/-- Stream run with the credential absent, for the C5 witness. -/
def cfgNoKeyW : StreamConfig :=
  ⟨"", "a@x.com", "s", fun _ => .verdict "deliverable" "", fun _ => none, fun _ => none⟩

/-- Witness for `stream_config_error_is_terminal` with an absent credential. -/
theorem stream_config_error_is_terminal_witness :
    cfgNoKeyW.apiKey = "" ∧
    (∃ t msg, generate cfgNoKeyW = [StreamItem.event (.configError t msg)]
      ∧ progressEvents (generate cfgNoKeyW) = []
      ∧ savesOf (generate cfgNoKeyW) = []
      ∧ eventsOf (generate cfgNoKeyW) = [.configError t msg]) :=
  ⟨rfl, stream_config_error_is_terminal cfgNoKeyW (Or.inl rfl)⟩

/-- C6: every streamed run's event sequence ends with exactly one terminal
event (config error, complete, or partial-complete), and when a run-level
fault interrupts the loop at iteration `j` of a configured run, the final
event is a partial-complete carrying exactly the deliverable and
undeliverable results accumulated over the first `j - 1` addresses, with
`totalProcessed` equal to the sum of the two bucket sizes. -/
theorem stream_terminal_and_partial (cfg : StreamConfig) :
    (∃ pre t, eventsOf (generate cfg) = pre ++ [t] ∧ isTerminalEvent t = true
      ∧ ∀ x ∈ pre, isTerminalEvent x = false)
    ∧ (∀ j m, cfg.apiKey ≠ "" → pyStrip cfg.emailsText ≠ "" →
        parse_emails cfg.emailsText ≠ [] →
        cfg.runFaultAt j = some m → (∀ k, 1 ≤ k → k < j → cfg.runFaultAt k = none) →
        1 ≤ j → j ≤ (parse_emails cfg.emailsText).length →
        ∃ pre D U, eventsOf (generate cfg) =
            pre ++ [.partialComplete m D U (D.length + U.length) cfg.sessionId
              (partial_message (D.length + U.length))]
          ∧ D = delivOf (stream_classified cfg 1 ((parse_emails cfg.emailsText).take (j - 1)))
          ∧ U = undelivOf (stream_classified cfg 1 ((parse_emails cfg.emailsText).take (j - 1)))) := by
  constructor
  · by_cases hk : cfg.apiKey = ""
    · exact ⟨[], .configError true "KICKBOX_API_KEY not configured on server",
        by simp [generate, hk, eventsOf_cons_event, eventsOf_nil], rfl, by simp⟩
    · by_cases htr : pyStrip cfg.emailsText = ""
      · exact ⟨[], .configError false "No emails provided",
          by simp [generate, hk, htr, eventsOf_cons_event, eventsOf_nil], rfl, by simp⟩
      · by_cases hp : parse_emails cfg.emailsText = []
        · exact ⟨[], .configError false "No valid emails found",
            by simp [generate, hk, htr, hp, eventsOf_cons_event, eventsOf_nil], rfl, by simp⟩
        · obtain ⟨pre, t, heq, hterm, hpre⟩ :=
            stream_loop_ends_terminal cfg (parse_emails cfg.emailsText).length
              (parse_emails cfg.emailsText) 1 [] []
          refine ⟨.progress 0 (parse_emails cfg.emailsText).length 0 none cfg.sessionId none
            :: pre, t, ?_, hterm, ?_⟩
          · simp [generate, hk, htr, hp, List.isEmpty_iff, eventsOf_cons_event, heq]
          · intro x hx
            rcases List.mem_cons.mp hx with h1 | h2
            · subst h1; rfl
            · exact hpre x h2
  · intro j m hk htr hp hj hpre hj1 hjle
    obtain ⟨pre, D, U, heq, hD, hU⟩ :=
      stream_loop_fault cfg (parse_emails cfg.emailsText).length j m hj
        (parse_emails cfg.emailsText) 1 [] [] hj1
        (fun k h1 h2 => hpre k h1 h2) (by omega)
    refine ⟨.progress 0 (parse_emails cfg.emailsText).length 0 none cfg.sessionId none
      :: pre, D, U, ?_, by simpa using hD, by simpa using hU⟩
    simp [generate, hk, htr, hp, List.isEmpty_iff, eventsOf_cons_event, heq]

/-- Stream run whose second iteration hits a run-level fault, for the C6
witness. -/
def cfgRunFaultW : StreamConfig :=
  ⟨"k", "a@x.com\nb@x.com\nc@x.com", "s", fun _ => .verdict "deliverable" "",
   fun _ => none, fun k => if k = 2 then some "boom" else none⟩

/-- Witness for `stream_terminal_and_partial` at a concrete interrupted run. -/
theorem stream_terminal_and_partial_witness :
    (∃ pre t, eventsOf (generate cfgRunFaultW) = pre ++ [t] ∧ isTerminalEvent t = true
      ∧ ∀ x ∈ pre, isTerminalEvent x = false)
    ∧ (∃ pre D U, eventsOf (generate cfgRunFaultW) =
          pre ++ [.partialComplete "boom" D U (D.length + U.length) cfgRunFaultW.sessionId
            (partial_message (D.length + U.length))]
        ∧ D = delivOf (stream_classified cfgRunFaultW 1
            ((parse_emails cfgRunFaultW.emailsText).take 1))
        ∧ U = undelivOf (stream_classified cfgRunFaultW 1
            ((parse_emails cfgRunFaultW.emailsText).take 1))) := by
  have h := stream_terminal_and_partial cfgRunFaultW
  refine ⟨h.1, ?_⟩
  exact h.2 2 "boom" (by decide) (by decide) (by decide) rfl
    (fun k h1 h2 => by
      have hk1 : k = 1 := by omega
      subst hk1
      rfl) (by decide) (by decide)

/-- The C3 run: both addresses verify as deliverable, no faults. -/
def cfgTwoLineW : StreamConfig :=
  ⟨"k", "a@x.com\n\nb@x.com\n", "s", fun _ => .verdict "deliverable" "",
   fun _ => none, fun _ => none⟩

/-- C3 counterexample: on input `"a@x.com\n\nb@x.com\n"` the consumer does
not receive exactly two progress events — the generator also yields an
initial progress event with `current=0` before the loop (app.py line 190),
so there are three. -/
theorem stream_two_line_progress_count_not_two :
    ¬ (progressEvents (generate cfgTwoLineW)).length = 2 := by decide

/-- C3 amended: on input `"a@x.com\n\nb@x.com\n"` the blank line is
discarded so `total = 2`, and for any verification outcomes the consumer
receives exactly three progress events: an initial one with
`current=0, percentage=0`, then `current=1, percentage=50`, then
`current=2, percentage=100`. -/
theorem stream_two_line_progress_events (key sid : String)
    (api : Nat → ValidationResult) (hk : key ≠ "") :
    parse_emails "a@x.com\n\nb@x.com\n" = ["a@x.com", "b@x.com"]
    ∧ progressEvents (generate
        ⟨key, "a@x.com\n\nb@x.com\n", sid, api, fun _ => none, fun _ => none⟩) =
      [.progress 0 2 0 none sid none,
       .progress 1 2 50 (some "a@x.com") sid none,
       .progress 2 2 100 (some "b@x.com") sid none] := by
  have hp : parse_emails "a@x.com\n\nb@x.com\n" = ["a@x.com", "b@x.com"] := by decide
  have htr : ¬ pyStrip "a@x.com\n\nb@x.com\n" = "" := by decide
  refine ⟨hp, ?_⟩
  have hev := stream_loop_no_fault
    ⟨key, "a@x.com\n\nb@x.com\n", sid, api, fun _ => none, fun _ => none⟩ 2
    (fun _ => rfl) ["a@x.com", "b@x.com"] 1 [] []
  have hgen : generate ⟨key, "a@x.com\n\nb@x.com\n", sid, api, fun _ => none, fun _ => none⟩ =
      StreamItem.event (.progress 0 2 0 none sid none) ::
        stream_loop ⟨key, "a@x.com\n\nb@x.com\n", sid, api, fun _ => none, fun _ => none⟩
          2 1 ["a@x.com", "b@x.com"] [] [] := by
    simp [generate, hk, htr, hp]
  have h50 : float_percentage 1 2 = 50 := by decide
  have h100 : float_percentage 2 2 = 100 := by decide
  rw [progressEvents, hgen, eventsOf_cons_event, hev]
  simp [stream_progress_events, stream_warning, isProgressEvent, List.filter_append,
    h50, h100]

/-- Witness for `stream_two_line_progress_events` at a concrete key, session
and oracle. -/
theorem stream_two_line_progress_events_witness :
    ("k" : String) ≠ ""
    ∧ (parse_emails "a@x.com\n\nb@x.com\n" = ["a@x.com", "b@x.com"]
       ∧ progressEvents (generate
           ⟨"k", "a@x.com\n\nb@x.com\n", "s", fun _ => .verdict "deliverable" "",
            fun _ => none, fun _ => none⟩) =
         [.progress 0 2 0 none "s" none,
          .progress 1 2 50 (some "a@x.com") "s" none,
          .progress 2 2 100 (some "b@x.com") "s" none]) :=
  ⟨by decide, stream_two_line_progress_events "k" "s"
    (fun _ => .verdict "deliverable" "") (by decide)⟩
